import Mathlib

/-!
Verification development for the tracked-image synchronization protocol of
src/vulkano/src/image/traits.rs.

The source file declares the capability traits (Image, ImageView), the
tracked-resource protocol (TrackedImage, TrackedImageView), the barrier
request data model, and the transparent forwarding implementations for the
shared-ownership handle (Arc) and the borrowed reference.  The concrete
state machine behind transition, finish and on_submit is not part of the
file, so it is modelled from the spec where a claim needs it; everything
else is embedded directly from the source.

Rust traits become Lean type classes; trait objects become wrapped records;
mutable state parameters become explicit state passing; the mutable fence
factory callback becomes a function value together with the list of results
it was forced to produce.
-/

/-- Modelled from the spec: the image Layout enum lives in image sys, which
is outside the covered source; the glossary describes hardware-defined
layouts per usage kind, so the usual Vulkan layouts are enumerated. -/
inductive Layout where
  | Undefined
  | General
  | ColorAttachmentOptimal
  | DepthStencilAttachmentOptimal
  | DepthStencilReadOnlyOptimal
  | ShaderReadOnlyOptimal
  | TransferSrcOptimal
  | TransferDstOptimal
  | Preinitialized
  | PresentSrc
deriving DecidableEq

/-- Modelled from the spec: PipelineStages lives in the sync module, outside
the covered source; the glossary calls it a set of named pipeline phases, so
it is a bitset. -/
structure PipelineStages where
  bits : Nat
deriving DecidableEq

/-- Modelled from the spec: AccessFlagBits lives in the sync module, outside
the covered source; the glossary calls it a bitset of memory access kinds. -/
structure AccessFlagBits where
  bits : Nat
deriving DecidableEq

/-- Modelled from the spec: format classification is explicitly out of scope
(external collaborator), so a format is abstracted to the six classification
predicates the covered source queries. -/
structure Format where
  is_float : Bool
  is_uint : Bool
  is_sint : Bool
  is_depth : Bool
  is_stencil : Bool
  is_depth_stencil : Bool
deriving DecidableEq

/-- Modelled from the spec: image dimensions as queried through the
capability view (width, height, depth, array layers, mip levels). -/
structure ImageDimensions where
  width : Nat
  height : Nat
  depth : Nat
  array_layers : Nat
  mipmap_levels : Nat
deriving DecidableEq

/-- Modelled from the spec: the dimensions of an image view. -/
structure Dimensions where
  width : Nat
  height : Nat
  depth : Nat
  array_layers : Nat
deriving DecidableEq

/-- Modelled from the spec: the underlying image object (UnsafeImage in the
source imports) is out of scope; the covered source only queries it for
format, sample count, dimensions and the two blit capability flags. -/
structure RawImage where
  format : Format
  samples : Nat
  dimensions : ImageDimensions
  supports_blit_source : Bool
  supports_blit_destination : Bool
deriving DecidableEq

/-- Modelled from the spec: the underlying image view object (UnsafeImageView
in the source imports) is out of scope; the covered source only queries its
format. -/
structure RawImageView where
  format : Format
deriving DecidableEq

/-- Modelled from the spec: a sampler configuration, opaque to this core. -/
structure Sampler where
  id : Nat
deriving DecidableEq

/-- Modelled from the spec: a fence object, opaque to this core. -/
structure Fence where
  id : Nat
deriving DecidableEq

/-- Modelled from the spec: a semaphore object, opaque to this core. -/
structure Semaphore where
  id : Nat
deriving DecidableEq

/-- Modelled from the spec: a queue, identified by its family for the
cross-queue handoff decision of on_submit. -/
structure Queue where
  family : Nat
deriving DecidableEq

/-- The Image trait of the source: one required accessor returning the
underlying image object; every other query is default-derived from it. -/
class Image (α : Type) where
  inner : α → RawImage

/-- Default body of Image.format in the source: delegates to the inner
object. -/
def Image.format {α : Type} [Image α] (a : α) : Format :=
  (Image.inner a).format

/-- Default body of Image.has_color in the source: the format is float,
uint or sint classified. -/
def Image.has_color {α : Type} [Image α] (a : α) : Bool :=
  let format := Image.format a
  format.is_float || format.is_uint || format.is_sint

/-- Default body of Image.has_depth in the source: the format is depth or
depth-stencil classified. -/
def Image.has_depth {α : Type} [Image α] (a : α) : Bool :=
  let format := Image.format a
  format.is_depth || format.is_depth_stencil

/-- Default body of Image.has_stencil in the source: the format is stencil
or depth-stencil classified. -/
def Image.has_stencil {α : Type} [Image α] (a : α) : Bool :=
  let format := Image.format a
  format.is_stencil || format.is_depth_stencil

/-- Default body of Image.samples in the source. -/
def Image.samples {α : Type} [Image α] (a : α) : Nat :=
  (Image.inner a).samples

/-- Default body of Image.dimensions in the source. -/
def Image.dimensions {α : Type} [Image α] (a : α) : ImageDimensions :=
  (Image.inner a).dimensions

/-- Default body of Image.supports_blit_source in the source. -/
def Image.supports_blit_source {α : Type} [Image α] (a : α) : Bool :=
  (Image.inner a).supports_blit_source

/-- Default body of Image.supports_blit_destination in the source. -/
def Image.supports_blit_destination {α : Type} [Image α] (a : α) : Bool :=
  (Image.inner a).supports_blit_destination

/-- Shared-ownership handle wrapper, modelling Arc of the source. -/
structure Arc (α : Type) where
  val : α

/-- Borrowed-reference wrapper, modelling a shared reference in the
source. -/
structure Ref (α : Type) where
  val : α

/-- The impl of Image for Arc in the source: inner delegates to the wrapped
value. -/
instance {α : Type} [Image α] : Image (Arc α) where
  inner a := Image.inner a.val

/-- The impl of Image for a borrowed reference in the source: inner
delegates to the wrapped value. -/
instance {α : Type} [Image α] : Image (Ref α) where
  inner a := Image.inner a.val

/-- TrackedImagePipelineMemoryBarrierRequest from the source: the embedded
memory barrier of a pipeline barrier request, carrying only the subresource
range, the old and new layouts, and the source and destination accesses. -/
structure TrackedImagePipelineMemoryBarrierRequest where
  first_mipmap : Nat
  num_mipmaps : Nat
  first_layer : Nat
  num_layers : Nat
  old_layout : Layout
  new_layout : Layout
  source_access : AccessFlagBits
  destination_access : AccessFlagBits
deriving DecidableEq

/-- TrackedImagePipelineBarrierRequest from the source: a requested pipeline
barrier placed after a given command, with source and destination stage
sets, a by-region flag and an optional embedded memory barrier. -/
structure TrackedImagePipelineBarrierRequest where
  after_command_num : Nat
  source_stage : PipelineStages
  destination_stages : PipelineStages
  by_region : Bool
  memory_barrier : Option TrackedImagePipelineMemoryBarrierRequest
deriving DecidableEq

/-- TrackedImageSubmitInfos from the source: the submission bundle of
optional pre and post semaphores and optional pre and post barriers. -/
structure TrackedImageSubmitInfos where
  pre_semaphore : Option (Semaphore × PipelineStages)
  post_semaphore : Option Semaphore
  pre_barrier : Option TrackedImagePipelineBarrierRequest
  post_barrier : Option TrackedImagePipelineBarrierRequest
deriving DecidableEq

/-- Modelled from the spec: a subresource range, the cross product of a
contiguous mip-level span and a contiguous array-layer span. -/
structure SubresRange where
  first_mipmap : Nat
  num_mipmaps : Nat
  first_layer : Nat
  num_layers : Nat
deriving DecidableEq

/-- Modelled from the spec: the usage record the state machine keeps per
subresource range after its most recent usage. -/
structure ImageUsageRecord where
  layout : Layout
  stages : PipelineStages
  access : AccessFlagBits
  write : Bool
  command_num : Nat
deriving DecidableEq

/-- Modelled from the spec: the externalized per-context tracking state for
one image, mapping subresource ranges to usage records, plus the queue
family of the last submission touching the image (used by on_submit for the
cross-queue handoff decision). -/
structure ImageState where
  ranges : List (SubresRange × ImageUsageRecord)
  last_queue_family : Option Nat
deriving DecidableEq

/-- Modelled from the spec: the failure taxonomy of the transition
operation; ordering violations for non-ascending command indices, and
a precondition failure for a range that overlaps a previously-distinct
range without coinciding with it. -/
inductive TransitionError where
  | orderingViolation
  | strayOverlapFailure
deriving DecidableEq

/-- Two half-open spans overlap when each starts before the other ends. -/
def spansOverlap (f1 n1 f2 n2 : Nat) : Bool :=
  decide (f1 < f2 + n2) && decide (f2 < f1 + n1)

/-- Two subresource ranges overlap when both their mip spans and their
layer spans overlap. -/
def overlaps (a b : SubresRange) : Bool :=
  spansOverlap a.first_mipmap a.num_mipmaps b.first_mipmap b.num_mipmaps &&
    spansOverlap a.first_layer a.num_layers b.first_layer b.num_layers

/-- Modelled from the spec: the record assumed for a range never previously
recorded: undefined layout, no pending access, not a write, command index
zero (the sentinel for no prior usage). -/
def noUsage : ImageUsageRecord :=
  { layout := Layout.Undefined
    stages := { bits := 0 }
    access := { bits := 0 }
    write := false
    command_num := 0 }

/-- The prior usage record for a range: the record stored under exactly
that range key, if any. -/
def findPrior (l : List (SubresRange × ImageUsageRecord)) (r : SubresRange) :
    Option ImageUsageRecord :=
  Option.map (fun e => e.2) (l.find? (fun e => decide (e.1 = r)))

/-- Ordering check: true when some recorded record overlapping the range
has a command index at least the requested one.  Per the spec, recording
must proceed command-index-ascending per range; the spec leaves the equal
case implementer-defined, and this model treats it as a violation. -/
def ordViolated (l : List (SubresRange × ImageUsageRecord)) (r : SubresRange)
    (n : Nat) : Bool :=
  l.any (fun e => overlaps e.1 r && decide (n ≤ e.2.command_num))

/-- Precondition check: true when some recorded range overlaps the request
without coinciding with it; the spec surfaces such requests as precondition
failures rather than attempting partial-range reconciliation. -/
def strayOverlap (l : List (SubresRange × ImageUsageRecord))
    (r : SubresRange) : Bool :=
  l.any (fun e => overlaps e.1 r && !(decide (e.1 = r)))

/-- Modelled from the spec: the hazard decision of transition.  A barrier is
required when any of: the target layout differs from the prior layout, the
prior usage was a write, or the new usage is a write. -/
def hazardCheck (prior : ImageUsageRecord) (write : Bool)
    (layout : Layout) : Bool :=
  decide (layout ≠ prior.layout) || prior.write || write

/-- Modelled from the spec: the transition operation of the tracked-image
state machine.  It rejects non-ascending command indices for overlapping
ranges (fail fast), rejects stray partial overlaps as precondition
failures, otherwise decides the hazard against the prior record (or the
no-usage sentinel), emits the barrier request with the prior command index,
prior and new stage sets, and an embedded memory barrier carrying the old
and new layouts and accesses for the range, and finally supersedes the
record for that range with the new usage. -/
def transition (s : ImageState) (n : Nat) (r : SubresRange) (write : Bool)
    (layout : Layout) (stage : PipelineStages) (access : AccessFlagBits) :
    Except TransitionError
      (Option TrackedImagePipelineBarrierRequest × ImageState) :=
  if ordViolated s.ranges r n then
    Except.error TransitionError.orderingViolation
  else if strayOverlap s.ranges r then
    Except.error TransitionError.strayOverlapFailure
  else
    let prior := (findPrior s.ranges r).getD noUsage
    let barrier : Option TrackedImagePipelineBarrierRequest :=
      if hazardCheck prior write layout then
        some
          { after_command_num := prior.command_num
            source_stage := prior.stages
            destination_stages := stage
            by_region := false
            memory_barrier := some
              { first_mipmap := r.first_mipmap
                num_mipmaps := r.num_mipmaps
                first_layer := r.first_layer
                num_layers := r.num_layers
                old_layout := prior.layout
                new_layout := layout
                source_access := prior.access
                destination_access := access } }
      else none
    let newRanges :=
      s.ranges.filter (fun e => !(decide (e.1 = r))) ++
        [(r, { layout := layout, stages := stage, access := access,
               write := write, command_num := n })]
    Except.ok (barrier, { s with ranges := newRanges })

/-- Modelled from the spec: the stage set at which submitted work waits on
the pre-semaphore of a cross-queue handoff. -/
def topOfPipeStages : PipelineStages := { bits := 1 }

/-- Modelled from the spec: the on_submit operation.  It decides whether
this submission needs cross-queue synchronization by comparing the queue
family of the last submission with the current one; on a handoff it
produces a pre-semaphore to wait on, a post-semaphore to signal, and forces
the call-by-need fence factory exactly once so the handoff completion can
be observed; otherwise it returns an empty bundle and never forces the
factory.  The second component collects every fence the factory produced,
making the number of invocations observable in a purely functional
rendering. -/
def on_submit (s : ImageState) (q : Queue) (fence : Unit → Fence) :
    TrackedImageSubmitInfos × List Fence :=
  match s.last_queue_family with
  | none =>
    ({ pre_semaphore := none, post_semaphore := none,
       pre_barrier := none, post_barrier := none }, [])
  | some fam =>
    if fam = q.family then
      ({ pre_semaphore := none, post_semaphore := none,
         pre_barrier := none, post_barrier := none }, [])
    else
      let f := fence ()
      ({ pre_semaphore := some ({ id := 0 }, topOfPipeStages)
         post_semaphore := some { id := 0 }
         pre_barrier := none
         post_barrier := none }, [f])

/-- A dynamically typed image as reached through the parent accessor of an
image view: observably, its underlying raw image object. -/
structure AnyImage where
  inner : RawImage
deriving DecidableEq

instance : Image AnyImage where
  inner := AnyImage.inner

/-- The ImageView trait of the source: required accessors for the parent
image, the view dimensions, the inner view object, the four per-usage-kind
layout queries and the swizzle-identity flag; the sampler-compatibility
check has the permissive default body of the source. -/
class ImageView (α : Type) where
  parent : α → AnyImage
  dimensions : α → Dimensions
  inner : α → RawImageView
  descriptor_set_storage_image_layout : α → Layout
  descriptor_set_combined_image_sampler_layout : α → Layout
  descriptor_set_sampled_image_layout : α → Layout
  descriptor_set_input_attachment_layout : α → Layout
  identity_swizzle : α → Bool
  can_be_sampled : α → Sampler → Bool := fun _ _ => true

/-- Default body of ImageView.format in the source: delegates to the inner
view object; the view format may differ from the parent format. -/
def ImageView.format {α : Type} [ImageView α] (v : α) : Format :=
  (ImageView.inner v).format

/-- Default body of ImageView.samples in the source: delegates to the
parent image. -/
def ImageView.samples {α : Type} [ImageView α] (v : α) : Nat :=
  Image.samples (ImageView.parent v)

/-- The impl of ImageView for a borrowed reference in the source: every
method, the sampler check included, delegates to the wrapped value. -/
instance {α : Type} [ImageView α] : ImageView (Ref α) where
  parent v := ImageView.parent v.val
  dimensions v := ImageView.dimensions v.val
  inner v := ImageView.inner v.val
  descriptor_set_storage_image_layout v :=
    ImageView.descriptor_set_storage_image_layout v.val
  descriptor_set_combined_image_sampler_layout v :=
    ImageView.descriptor_set_combined_image_sampler_layout v.val
  descriptor_set_sampled_image_layout v :=
    ImageView.descriptor_set_sampled_image_layout v.val
  descriptor_set_input_attachment_layout v :=
    ImageView.descriptor_set_input_attachment_layout v.val
  identity_swizzle v := ImageView.identity_swizzle v.val
  can_be_sampled v s := ImageView.can_be_sampled v.val s

/-- The impl of ImageView for Arc in the source: every method, the sampler
check included, delegates to the wrapped value. -/
instance {α : Type} [ImageView α] : ImageView (Arc α) where
  parent v := ImageView.parent v.val
  dimensions v := ImageView.dimensions v.val
  inner v := ImageView.inner v.val
  descriptor_set_storage_image_layout v :=
    ImageView.descriptor_set_storage_image_layout v.val
  descriptor_set_combined_image_sampler_layout v :=
    ImageView.descriptor_set_combined_image_sampler_layout v.val
  descriptor_set_sampled_image_layout v :=
    ImageView.descriptor_set_sampled_image_layout v.val
  descriptor_set_input_attachment_layout v :=
    ImageView.descriptor_set_input_attachment_layout v.val
  identity_swizzle v := ImageView.identity_swizzle v.val
  can_be_sampled v s := ImageView.can_be_sampled v.val s

/-- The TrackedImage trait of the source, generic over the externalized
state type.  The three operations are required methods with no default
body; the mutable state references become explicit state passing, the
fail-fast ordering-violation policy becomes the error side of Except, and
the mutable fence factory becomes a function value paired with the list of
fences it was forced to produce. -/
class TrackedImage (α : Type) (S : Type) [Image α] where
  transition : α → S → Nat → Nat → Nat → Nat → Nat → Bool → Layout →
    PipelineStages → AccessFlagBits →
    Except TransitionError (Option TrackedImagePipelineBarrierRequest × S)
  finish : α → S → S →
    Option TrackedImagePipelineBarrierRequest × S × S
  on_submit : α → S → Queue → (Unit → Fence) →
    TrackedImageSubmitInfos × List Fence

/-- The impl of TrackedImage for Arc in the source: all three operations
delegate to the wrapped value with unchanged arguments. -/
instance {α S : Type} [Image α] [TrackedImage α S] : TrackedImage (Arc α) S where
  transition a s n fm nm fl nl w l st ac :=
    TrackedImage.transition a.val s n fm nm fl nl w l st ac
  finish a i o := TrackedImage.finish a.val i o
  on_submit a s q f := TrackedImage.on_submit a.val s q f

/-- The impl of TrackedImage for a borrowed reference in the source: all
three operations delegate to the wrapped value with unchanged arguments. -/
instance {α S : Type} [Image α] [TrackedImage α S] : TrackedImage (Ref α) S where
  transition a s n fm nm fl nl w l st ac :=
    TrackedImage.transition a.val s n fm nm fl nl w l st ac
  finish a i o := TrackedImage.finish a.val i o
  on_submit a s q f := TrackedImage.on_submit a.val s q f

/-- The TrackedImageView trait of the source: links a view to its tracked
parent image.  The associated image type becomes a class parameter. -/
class TrackedImageView (α : Type) (S : Type) (I : Type) [ImageView α]
    [Image I] [TrackedImage I S] where
  image : α → I

/-- The impl of TrackedImageView for a borrowed reference in the source:
the image accessor delegates to the wrapped value. -/
instance {α S I : Type} [ImageView α] [Image I] [TrackedImage I S]
    [TrackedImageView α S I] : TrackedImageView (Ref α) S I where
  image v := TrackedImageView.image S v.val

/-- The impl of TrackedImageView for Arc in the source: the image accessor
delegates to the wrapped value. -/
instance {α S I : Type} [ImageView α] [Image I] [TrackedImage I S]
    [TrackedImageView α S I] : TrackedImageView (Arc α) S I where
  image v := TrackedImageView.image S v.val

/-- A concrete image type carrying its raw object, used to evaluate the
capability interface on explicit values. -/
structure ConcreteImage where
  raw : RawImage
deriving DecidableEq

instance : Image ConcreteImage where
  inner := ConcreteImage.raw

/-- A sample format, classified as float. -/
def sampleFormat : Format :=
  { is_float := true, is_uint := false, is_sint := false,
    is_depth := false, is_stencil := false, is_depth_stencil := false }

/-- A sample raw image. -/
def sampleRaw : RawImage :=
  { format := sampleFormat
    samples := 1
    dimensions :=
      { width := 4, height := 4, depth := 1, array_layers := 2,
        mipmap_levels := 2 }
    supports_blit_source := true
    supports_blit_destination := false }

/-- A sample concrete image. -/
def sampleImage : ConcreteImage := { raw := sampleRaw }

/-- A concrete image view type carrying its raw view object; its interface
instance leaves the sampler-compatibility check at the default body of the
source. -/
structure ConcreteView where
  raw : RawImageView
deriving DecidableEq

instance : ImageView ConcreteView where
  parent _ := { inner := sampleRaw }
  dimensions _ := { width := 4, height := 4, depth := 1, array_layers := 2 }
  inner := ConcreteView.raw
  descriptor_set_storage_image_layout _ := Layout.General
  descriptor_set_combined_image_sampler_layout _ :=
    Layout.ShaderReadOnlyOptimal
  descriptor_set_sampled_image_layout _ := Layout.ShaderReadOnlyOptimal
  descriptor_set_input_attachment_layout _ := Layout.ShaderReadOnlyOptimal
  identity_swizzle _ := true

/-- A sample concrete view. -/
def sampleView : ConcreteView := { raw := { format := sampleFormat } }

/-- A sample sampler configuration. -/
def sampleSampler : Sampler := { id := 7 }

example :
    transition { ranges := [], last_queue_family := none } 1
      { first_mipmap := 0, num_mipmaps := 2, first_layer := 0, num_layers := 2 }
      true Layout.TransferDstOptimal { bits := 4 } { bits := 8 } =
    Except.ok
      (some
        { after_command_num := 0
          source_stage := { bits := 0 }
          destination_stages := { bits := 4 }
          by_region := false
          memory_barrier := some
            { first_mipmap := 0, num_mipmaps := 2, first_layer := 0,
              num_layers := 2, old_layout := Layout.Undefined,
              new_layout := Layout.TransferDstOptimal,
              source_access := { bits := 0 },
              destination_access := { bits := 8 } } },
       { ranges := [({ first_mipmap := 0, num_mipmaps := 2, first_layer := 0,
                       num_layers := 2 },
                     { layout := Layout.TransferDstOptimal, stages := { bits := 4 },
                       access := { bits := 8 }, write := true, command_num := 1 })],
         last_queue_family := none }) := by
  rfl

/-- A successful transition means both guards were false. -/
theorem transition_ok_guards (s : ImageState) (n : Nat) (r : SubresRange)
    (write : Bool) (layout : Layout) (stage : PipelineStages)
    (access : AccessFlagBits)
    (p : Option TrackedImagePipelineBarrierRequest) (s1 : ImageState)
    (h : transition s n r write layout stage access = Except.ok (p, s1)) :
    ordViolated s.ranges r n = false ∧ strayOverlap s.ranges r = false := by
  by_cases h1 : ordViolated s.ranges r n
  · rw [transition, if_pos h1] at h
    exact absurd h (by simp)
  · by_cases h2 : strayOverlap s.ranges r
    · rw [transition, if_neg h1, if_pos h2] at h
      exact absurd h (by simp)
    · exact ⟨Bool.not_eq_true _ ▸ h1, Bool.not_eq_true _ ▸ h2⟩

/-- Shape of a successful transition: the guards false, the result is the
hazard-decided barrier and the superseded state. -/
theorem transition_ok_eq (s : ImageState) (n : Nat) (r : SubresRange)
    (write : Bool) (layout : Layout) (stage : PipelineStages)
    (access : AccessFlagBits)
    (hord : ordViolated s.ranges r n = false)
    (hstray : strayOverlap s.ranges r = false) :
    transition s n r write layout stage access =
      Except.ok
        ((if hazardCheck ((findPrior s.ranges r).getD noUsage) write layout then
            some
              { after_command_num :=
                  ((findPrior s.ranges r).getD noUsage).command_num
                source_stage := ((findPrior s.ranges r).getD noUsage).stages
                destination_stages := stage
                by_region := false
                memory_barrier := some
                  { first_mipmap := r.first_mipmap
                    num_mipmaps := r.num_mipmaps
                    first_layer := r.first_layer
                    num_layers := r.num_layers
                    old_layout := ((findPrior s.ranges r).getD noUsage).layout
                    new_layout := layout
                    source_access := ((findPrior s.ranges r).getD noUsage).access
                    destination_access := access } }
          else none),
         { s with ranges :=
             s.ranges.filter (fun e => !(decide (e.1 = r))) ++
               [(r, { layout := layout, stages := stage, access := access,
                      write := write, command_num := n })] }) := by
  rw [transition, if_neg (by simp [hord]), if_neg (by simp [hstray])]

/-- Every entry surviving the key filter fails to overlap the range when
the stray-overlap guard was false. -/
theorem filtered_no_overlap (l : List (SubresRange × ImageUsageRecord))
    (r : SubresRange) (hstray : strayOverlap l r = false) :
    ∀ e ∈ l.filter (fun e => !(decide (e.1 = r))), overlaps e.1 r = false := by
  intro e he
  rw [List.mem_filter] at he
  obtain ⟨hmem, hkey⟩ := he
  have hne : ¬(e.1 = r) := by simpa using hkey
  unfold strayOverlap at hstray
  simp only [List.any_eq_false] at hstray
  have h3 := hstray e hmem
  simp only [Bool.and_eq_true, Bool.not_eq_true', decide_eq_false_iff_not,
    not_and] at h3
  by_contra hov
  rw [Bool.not_eq_false] at hov
  exact absurd (h3 hov) (by simpa using hne)

/-- A concrete subresource range used by the witnesses: mips 0 to 1, layers
0 to 1. -/
def wRange : SubresRange :=
  { first_mipmap := 0, num_mipmaps := 2, first_layer := 0, num_layers := 2 }

/-- A concrete usage record used by the witnesses: a transfer write at
command index 5. -/
def wRec : ImageUsageRecord :=
  { layout := Layout.TransferDstOptimal, stages := { bits := 4 },
    access := { bits := 8 }, write := true, command_num := 5 }

/-- A concrete tracking state holding one record. -/
def wState : ImageState :=
  { ranges := [(wRange, wRec)], last_queue_family := none }

/-- A concrete range overlapping wRange without coinciding with it. -/
def wRange2 : SubresRange :=
  { first_mipmap := 1, num_mipmaps := 1, first_layer := 0, num_layers := 1 }

/-- C2: a transition call whose command index is strictly lower than the
index already recorded for an overlapping subresource range fails with the
ordering-violation error; the error result carries no barrier and no
updated state, so the call never silently proceeds. -/
theorem transition_rejects_lower_command_index
    (s : ImageState) (n : Nat) (r r0 : SubresRange) (rec : ImageUsageRecord)
    (write : Bool) (layout : Layout) (stage : PipelineStages)
    (access : AccessFlagBits)
    (hmem : (r0, rec) ∈ s.ranges) (hov : overlaps r0 r = true)
    (hlt : n < rec.command_num) :
    transition s n r write layout stage access =
      Except.error TransitionError.orderingViolation := by
  have hg : ordViolated s.ranges r n = true := by
    unfold ordViolated
    refine List.any_eq_true.mpr ⟨(r0, rec), hmem, ?_⟩
    simp only [hov, Bool.true_and, decide_eq_true_eq]
    omega
  rw [transition, if_pos (by simp [hg])]

/-- Witness for C2 at a concrete state: a record at command index 5 on an
overlapping range, a second call at command index 3 fails with the
ordering-violation error. -/
theorem transition_rejects_lower_command_index_witness :
    ((wRange, wRec) ∈ wState.ranges) ∧ (overlaps wRange wRange2 = true) ∧
      (3 < wRec.command_num) ∧
      transition wState 3 wRange2 false Layout.ShaderReadOnlyOptimal
        { bits := 2 } { bits := 16 } =
        Except.error TransitionError.orderingViolation :=
  ⟨by decide, by decide, by decide,
   transition_rejects_lower_command_index wState 3 wRange2 wRange wRec false
     Layout.ShaderReadOnlyOptimal { bits := 2 } { bits := 16 }
     (by decide) (by decide) (by decide)⟩

/-- C3: the first transition call on a range with no prior usage record
succeeds; any barrier it requests uses the sentinel value zero for
after_command_num, and the hazard decision assumes no prior write: a
barrier is requested exactly when the target layout differs from the
undefined layout or the new usage is a write. -/
theorem transition_first_use_sentinel
    (s : ImageState) (n : Nat) (r : SubresRange) (write : Bool)
    (layout : Layout) (stage : PipelineStages) (access : AccessFlagBits)
    (hnone : findPrior s.ranges r = none)
    (hnoov : ∀ e ∈ s.ranges, overlaps e.1 r = false) :
    ∃ b s1, transition s n r write layout stage access = Except.ok (b, s1) ∧
      (∀ br, b = some br → br.after_command_num = 0) ∧
      (b.isSome = true ↔ (layout ≠ Layout.Undefined ∨ write = true)) := by
  have hord : ordViolated s.ranges r n = false := by
    unfold ordViolated
    simp only [List.any_eq_false]
    intro e he
    simp [hnoov e he]
  have hstray : strayOverlap s.ranges r = false := by
    unfold strayOverlap
    simp only [List.any_eq_false]
    intro e he
    simp [hnoov e he]
  rw [transition_ok_eq s n r write layout stage access hord hstray, hnone]
  refine ⟨_, _, rfl, ?_, ?_⟩
  · intro br hbr
    split at hbr
    · cases hbr
      rfl
    · cases hbr
  · by_cases hz : hazardCheck (Option.getD none noUsage) write layout = true
    · rw [if_pos hz]
      simp only [Option.isSome_some, true_iff]
      simp only [hazardCheck, noUsage, Option.getD_none, Bool.or_eq_true,
        decide_eq_true_eq] at hz
      rcases hz with (h | h) | h
      · exact Or.inl h
      · exact absurd h (by simp)
      · exact Or.inr h
    · rw [if_neg hz]
      simp only [Option.isSome_none, Bool.false_eq_true, false_iff, not_or]
      simp only [hazardCheck, noUsage, Option.getD_none, Bool.or_eq_true,
        decide_eq_true_eq, not_or] at hz
      push_neg at hz
      exact ⟨fun hcon => hcon hz.1.1, hz.2⟩

/-- Witness for C3: on the empty state, a first write in the transfer
destination layout produces a barrier whose after_command_num is the
sentinel zero. -/
theorem transition_first_use_sentinel_witness :
    (findPrior (ImageState.ranges { ranges := [], last_queue_family := none })
        wRange = none) ∧
      (∀ e ∈ ImageState.ranges { ranges := [], last_queue_family := none },
        overlaps e.1 wRange = false) ∧
      (∃ b s1,
        transition { ranges := [], last_queue_family := none } 1 wRange true
            Layout.TransferDstOptimal { bits := 4 } { bits := 8 } =
          Except.ok (b, s1) ∧
        (∀ br, b = some br → br.after_command_num = 0) ∧
        (b.isSome = true ↔
          (Layout.TransferDstOptimal ≠ Layout.Undefined ∨ true = true))) :=
  ⟨by decide, by simp,
   transition_first_use_sentinel { ranges := [], last_queue_family := none } 1
     wRange true Layout.TransferDstOptimal { bits := 4 } { bits := 8 }
     (by decide) (by simp)⟩

/-- C4: on_submit forces the fence factory zero or one times, never more;
the number of fences it obtains is exactly one when the returned submit
infos carry the cross-queue handoff post-semaphore and exactly zero
otherwise, so the factory is forced only when the submission actually
needs a fence-bearing handoff path. -/
theorem on_submit_fence_factory_at_most_once
    (s : ImageState) (q : Queue) (fence : Unit → Fence) :
    (on_submit s q fence).2.length ≤ 1 ∧
      (on_submit s q fence).2.length =
        (if (on_submit s q fence).1.post_semaphore.isSome = true then 1
         else 0) := by
  unfold on_submit
  cases s.last_queue_family with
  | none => simp
  | some fam =>
    by_cases h : fam = q.family
    · simp [h]
    · simp [h]

/-- The data content of a memory barrier request: its subresource range,
its layout pair and its access pair. -/
def memBarrierData (b : TrackedImagePipelineMemoryBarrierRequest) :
    ((Nat × Nat) × (Nat × Nat)) × (Layout × Layout) ×
      (AccessFlagBits × AccessFlagBits) :=
  (((b.first_mipmap, b.num_mipmaps), (b.first_layer, b.num_layers)),
    (b.old_layout, b.new_layout), (b.source_access, b.destination_access))

/-- Rebuilding a memory barrier request from range, layout and access
data. -/
def memBarrierOfData
    (d : ((Nat × Nat) × (Nat × Nat)) × (Layout × Layout) ×
      (AccessFlagBits × AccessFlagBits)) :
    TrackedImagePipelineMemoryBarrierRequest :=
  { first_mipmap := d.1.1.1, num_mipmaps := d.1.1.2,
    first_layer := d.1.2.1, num_layers := d.1.2.2,
    old_layout := d.2.1.1, new_layout := d.2.1.2,
    source_access := d.2.2.1, destination_access := d.2.2.2 }

/-- C5: a memory barrier request is exactly its subresource range, layout
pair and access pair: the conversion to that data and back is the identity
in both directions, so the record carries no field referencing any other
resource, and no operation of the protocol can produce a cross-resource
memory barrier through it. -/
theorem memory_barrier_request_carries_no_resource :
    (∀ b, memBarrierOfData (memBarrierData b) = b) ∧
      (∀ d, memBarrierData (memBarrierOfData d) = d) :=
  ⟨fun _ => rfl, fun _ => rfl⟩

/-- C6: has_color holds exactly for float, uint or sint classified formats;
has_depth exactly for depth or depth-stencil classified formats;
has_stencil exactly for stencil or depth-stencil classified formats. -/
theorem has_color_depth_stencil_classification
    {α : Type} [Image α] (a : α) :
    (Image.has_color a = true ↔
      ((Image.format a).is_float = true ∨ (Image.format a).is_uint = true ∨
        (Image.format a).is_sint = true)) ∧
    (Image.has_depth a = true ↔
      ((Image.format a).is_depth = true ∨
        (Image.format a).is_depth_stencil = true)) ∧
    (Image.has_stencil a = true ↔
      ((Image.format a).is_stencil = true ∨
        (Image.format a).is_depth_stencil = true)) := by
  refine ⟨?_, ?_, ?_⟩ <;>
    simp [Image.has_color, Image.has_depth, Image.has_stencil,
      Bool.or_eq_true, or_assoc]

/-- C7: every query of the image capability view is referentially
transparent through the shared-ownership wrapper and through the borrowed
reference: each of the eight queries on the wrapped value equals the query
on the underlying value. -/
theorem image_queries_transparent_through_wrappers
    {α : Type} [Image α] (a : α) :
    Image.format (Arc.mk a) = Image.format a ∧
    Image.has_color (Arc.mk a) = Image.has_color a ∧
    Image.has_depth (Arc.mk a) = Image.has_depth a ∧
    Image.has_stencil (Arc.mk a) = Image.has_stencil a ∧
    Image.samples (Arc.mk a) = Image.samples a ∧
    Image.dimensions (Arc.mk a) = Image.dimensions a ∧
    Image.supports_blit_source (Arc.mk a) = Image.supports_blit_source a ∧
    Image.supports_blit_destination (Arc.mk a) =
      Image.supports_blit_destination a ∧
    Image.format (Ref.mk a) = Image.format a ∧
    Image.has_color (Ref.mk a) = Image.has_color a ∧
    Image.has_depth (Ref.mk a) = Image.has_depth a ∧
    Image.has_stencil (Ref.mk a) = Image.has_stencil a ∧
    Image.samples (Ref.mk a) = Image.samples a ∧
    Image.dimensions (Ref.mk a) = Image.dimensions a ∧
    Image.supports_blit_source (Ref.mk a) = Image.supports_blit_source a ∧
    Image.supports_blit_destination (Ref.mk a) =
      Image.supports_blit_destination a :=
  ⟨rfl, rfl, rfl, rfl, rfl, rfl, rfl, rfl,
   rfl, rfl, rfl, rfl, rfl, rfl, rfl, rfl⟩

/-- C9: when the sampler-compatibility check of an image view is the
permissive default body of the source, it returns true for every sampler,
regardless of the sampler configuration and of the view. -/
theorem can_be_sampled_default_permits
    {α : Type} [inst : ImageView α] (v : α) (s : Sampler)
    (h : @ImageView.can_be_sampled α inst = fun _ _ => true) :
    ImageView.can_be_sampled v s = true := by
  rw [h]

/-- Witness for C9: the concrete view instance leaves the sampler check at
its default, and sampling is permitted. -/
theorem can_be_sampled_default_permits_witness :
    (@ImageView.can_be_sampled ConcreteView _ = fun _ _ => true) ∧
      ImageView.can_be_sampled sampleView sampleSampler = true :=
  ⟨rfl, can_be_sampled_default_permits sampleView sampleSampler rfl⟩

/-- C10: every default-derived query of the image capability view is a pure
function of the inner accessor alone: two images over any two
implementations whose inner objects coincide answer every query
identically. -/
theorem image_queries_determined_by_inner
    {α β : Type} [Image α] [Image β] (a : α) (b : β)
    (h : Image.inner a = Image.inner b) :
    Image.format a = Image.format b ∧
    Image.has_color a = Image.has_color b ∧
    Image.has_depth a = Image.has_depth b ∧
    Image.has_stencil a = Image.has_stencil b ∧
    Image.samples a = Image.samples b ∧
    Image.dimensions a = Image.dimensions b ∧
    Image.supports_blit_source a = Image.supports_blit_source b ∧
    Image.supports_blit_destination a = Image.supports_blit_destination b := by
  refine ⟨?_, ?_, ?_, ?_, ?_, ?_, ?_, ?_⟩ <;>
    simp [Image.format, Image.has_color, Image.has_depth, Image.has_stencil,
      Image.samples, Image.dimensions, Image.supports_blit_source,
      Image.supports_blit_destination, h]

/-- Witness for C10: a concrete image and its shared-ownership wrapper have
the same inner object, hence identical answers to every query. -/
theorem image_queries_determined_by_inner_witness :
    (Image.inner sampleImage = Image.inner (Arc.mk sampleImage)) ∧
      (Image.format sampleImage = Image.format (Arc.mk sampleImage) ∧
        Image.has_color sampleImage = Image.has_color (Arc.mk sampleImage) ∧
        Image.has_depth sampleImage = Image.has_depth (Arc.mk sampleImage) ∧
        Image.has_stencil sampleImage =
          Image.has_stencil (Arc.mk sampleImage) ∧
        Image.samples sampleImage = Image.samples (Arc.mk sampleImage) ∧
        Image.dimensions sampleImage =
          Image.dimensions (Arc.mk sampleImage) ∧
        Image.supports_blit_source sampleImage =
          Image.supports_blit_source (Arc.mk sampleImage) ∧
        Image.supports_blit_destination sampleImage =
          Image.supports_blit_destination (Arc.mk sampleImage)) :=
  ⟨rfl, image_queries_determined_by_inner sampleImage (Arc.mk sampleImage) rfl⟩

/-- C8: the three tracked-image operations and the tracked-view image
accessor are referentially transparent through the shared-ownership
wrapper and through the borrowed reference: each call on the wrapped value
equals the call on the underlying value with the same state and arguments,
hence produces the same result and the same state updates. -/
theorem tracked_operations_transparent_through_wrappers
    {α S I V : Type} [Image α] [TrackedImage α S] [ImageView V] [Image I]
    [TrackedImage I S] [TrackedImageView V S I] (a : α) (s i o : S)
    (n fm nm fl nl : Nat) (w : Bool) (l : Layout) (st : PipelineStages)
    (ac : AccessFlagBits) (q : Queue) (f : Unit → Fence) (v : V) :
    TrackedImage.transition (Arc.mk a) s n fm nm fl nl w l st ac =
      TrackedImage.transition a s n fm nm fl nl w l st ac ∧
    TrackedImage.finish (Arc.mk a) i o = TrackedImage.finish a i o ∧
    TrackedImage.on_submit (Arc.mk a) s q f =
      TrackedImage.on_submit a s q f ∧
    TrackedImage.transition (Ref.mk a) s n fm nm fl nl w l st ac =
      TrackedImage.transition a s n fm nm fl nl w l st ac ∧
    TrackedImage.finish (Ref.mk a) i o = TrackedImage.finish a i o ∧
    TrackedImage.on_submit (Ref.mk a) s q f =
      TrackedImage.on_submit a s q f ∧
    TrackedImageView.image S (Arc.mk v) = (TrackedImageView.image S v : I) ∧
    TrackedImageView.image S (Ref.mk v) = (TrackedImageView.image S v : I) :=
  ⟨rfl, rfl, rfl, rfl, rfl, rfl, rfl, rfl⟩

/-- After a successful read transition on a range, a second read at a
strictly higher command index with the same layout produces no barrier:
the record just written has that layout and is not a write. -/
theorem transition_read_after_read_no_barrier
    (s : ImageState) (n1 n2 : Nat) (r : SubresRange) (layout : Layout)
    (stage : PipelineStages) (access : AccessFlagBits)
    (p : Option TrackedImagePipelineBarrierRequest) (s1 : ImageState)
    (hlt : n1 < n2)
    (h : transition s n1 r false layout stage access = Except.ok (p, s1)) :
    ∃ s2, transition s1 n2 r false layout stage access =
      Except.ok (none, s2) := by
  obtain ⟨hord, hstray⟩ := transition_ok_guards _ _ _ _ _ _ _ _ _ h
  rw [transition_ok_eq s n1 r false layout stage access hord hstray] at h
  simp only [Except.ok.injEq, Prod.mk.injEq] at h
  obtain ⟨-, hs1⟩ := h
  have hnoovA := filtered_no_overlap s.ranges r hstray
  have hr1 : s1.ranges =
      s.ranges.filter (fun e => !(decide (e.1 = r))) ++
        [(r, { layout := layout, stages := stage, access := access,
               write := false, command_num := n1 })] := by
    rw [← hs1]
  have hordA : ordViolated s1.ranges r n2 = false := by
    rw [hr1]
    unfold ordViolated
    rw [List.any_append]
    have h1 : (s.ranges.filter (fun e => !(decide (e.1 = r)))).any
        (fun e => overlaps e.1 r && decide (n2 ≤ e.2.command_num)) = false := by
      simp only [List.any_eq_false]
      intro e he
      simp [hnoovA e he]
    have h2 : decide (n2 ≤ n1) = false := by
      simp only [decide_eq_false_iff_not]
      omega
    simp [h1, h2]
  have hstrayA : strayOverlap s1.ranges r = false := by
    rw [hr1]
    unfold strayOverlap
    rw [List.any_append]
    have h1 : (s.ranges.filter (fun e => !(decide (e.1 = r)))).any
        (fun e => overlaps e.1 r && !(decide (e.1 = r))) = false := by
      simp only [List.any_eq_false]
      intro e he
      simp [hnoovA e he]
    simp [h1]
  have hfp : findPrior s1.ranges r =
      some { layout := layout, stages := stage, access := access,
             write := false, command_num := n1 } := by
    rw [hr1]
    unfold findPrior
    rw [List.find?_append, List.find?_eq_none.mpr]
    · simp [List.find?_cons]
    · intro e he
      have h3 := (List.mem_filter.mp he).2
      simpa using h3
  rw [transition_ok_eq s1 n2 r false layout stage access hordA hstrayA, hfp]
  simp [hazardCheck]

/-- C1: on a range with a prior usage record, a successful transition
returns a barrier request exactly when the target layout differs from the
recorded layout, the prior usage was a write, or the new usage is a write;
consequently, a second identical read at a higher command index after a
read produces no barrier, and with a prior record matching a read of the
same layout, two consecutive identical reads both produce no barrier. -/
theorem transition_barrier_iff_hazard
    (s : ImageState) (n1 n2 : Nat) (r : SubresRange) (rec : ImageUsageRecord)
    (write : Bool) (layout : Layout) (stage : PipelineStages)
    (access : AccessFlagBits)
    (hprior : findPrior s.ranges r = some rec)
    (hord : ordViolated s.ranges r n1 = false)
    (hstray : strayOverlap s.ranges r = false)
    (hlt : n1 < n2) :
    (∃ b s1, transition s n1 r write layout stage access = Except.ok (b, s1) ∧
       (b.isSome = true ↔
         (layout ≠ rec.layout ∨ rec.write = true ∨ write = true))) ∧
    (∀ p s1, transition s n1 r false layout stage access = Except.ok (p, s1) →
       ∃ s2, transition s1 n2 r false layout stage access =
         Except.ok (none, s2)) ∧
    (rec.layout = layout → rec.write = false →
       ∃ s1 s2, transition s n1 r false layout stage access =
           Except.ok (none, s1) ∧
         transition s1 n2 r false layout stage access =
           Except.ok (none, s2)) := by
  refine ⟨?_, ?_, ?_⟩
  · rw [transition_ok_eq s n1 r write layout stage access hord hstray, hprior]
    refine ⟨_, _, rfl, ?_⟩
    by_cases hz :
        hazardCheck (Option.getD (some rec) noUsage) write layout = true
    · rw [if_pos hz]
      simp only [Option.isSome_some, true_iff]
      simp only [hazardCheck, Option.getD_some, Bool.or_eq_true,
        decide_eq_true_eq] at hz
      rcases hz with (h | h) | h
      · exact Or.inl h
      · exact Or.inr (Or.inl h)
      · exact Or.inr (Or.inr h)
    · rw [if_neg hz]
      simp only [Option.isSome_none, Bool.false_eq_true, false_iff, not_or]
      simp only [hazardCheck, Option.getD_some, Bool.or_eq_true,
        decide_eq_true_eq, not_or] at hz
      push_neg at hz
      exact ⟨fun hcon => hcon hz.1.1, hz.1.2, hz.2⟩
  · intro p s1 h
    exact transition_read_after_read_no_barrier s n1 n2 r layout stage access
      p s1 hlt h
  · intro hlay hw
    have h1 : transition s n1 r false layout stage access =
        Except.ok (none,
          { s with ranges :=
              s.ranges.filter (fun e => !(decide (e.1 = r))) ++
                [(r, { layout := layout, stages := stage, access := access,
                       write := false, command_num := n1 })] }) := by
      rw [transition_ok_eq s n1 r false layout stage access hord hstray,
        hprior]
      have hz : hazardCheck (Option.getD (some rec) noUsage) false layout =
          false := by
        simp [hazardCheck, hlay, hw]
      rw [hz]
      simp
    obtain ⟨s2, h2⟩ := transition_read_after_read_no_barrier s n1 n2 r layout
      stage access none _ hlt h1
    exact ⟨_, s2, h1, h2⟩

/-- Witness for C1 at a concrete state: after a transfer write recorded at
command index 5, a read in a different layout at command index 6 requests
a barrier by the hazard rule, and a further identical read at index 7
requests none. -/
theorem transition_barrier_iff_hazard_witness :
    (findPrior wState.ranges wRange = some wRec) ∧
    (ordViolated wState.ranges wRange 6 = false) ∧
    (strayOverlap wState.ranges wRange = false) ∧
    (6 < 7) ∧
    ((∃ b s1, transition wState 6 wRange false Layout.ShaderReadOnlyOptimal
        { bits := 2 } { bits := 16 } = Except.ok (b, s1) ∧
       (b.isSome = true ↔
         (Layout.ShaderReadOnlyOptimal ≠ wRec.layout ∨ wRec.write = true ∨
           false = true))) ∧
     (∀ p s1, transition wState 6 wRange false Layout.ShaderReadOnlyOptimal
         { bits := 2 } { bits := 16 } = Except.ok (p, s1) →
        ∃ s2, transition s1 7 wRange false Layout.ShaderReadOnlyOptimal
          { bits := 2 } { bits := 16 } = Except.ok (none, s2)) ∧
     (wRec.layout = Layout.ShaderReadOnlyOptimal → wRec.write = false →
        ∃ s1 s2,
          transition wState 6 wRange false Layout.ShaderReadOnlyOptimal
            { bits := 2 } { bits := 16 } = Except.ok (none, s1) ∧
          transition s1 7 wRange false Layout.ShaderReadOnlyOptimal
            { bits := 2 } { bits := 16 } = Except.ok (none, s2))) :=
  ⟨by decide, by decide, by decide, by decide,
   transition_barrier_iff_hazard wState 6 7 wRange wRec false
     Layout.ShaderReadOnlyOptimal { bits := 2 } { bits := 16 }
     (by decide) (by decide) (by decide) (by decide)⟩
